import Mathlib

/-!
Verification of the command-line front end of pixz (`src/pixz.c`).

Paths and C strings are modelled as `List Char`.  Machine integers that
matter here are small (compression level 0–9, the LZMA extreme bit) and are
modelled as `Nat`/`Int`.  Fallible steps return `Except`/`Option`.
-/

set_option maxRecDepth 4096

/-- The operation tag `pixz_op_t` from `pixz.c` (lines 12–17). -/
inductive pixz_op_t
  | OP_WRITE
  | OP_READ
  | OP_EXTRACT
  | OP_LIST
deriving DecidableEq, Repr

open pixz_op_t

/-- A file-system path / C string. -/
abbrev CStr := List Char

/-- The helper strsuf(big, small) (pixz.c lines 270–275): `strcmp(big + bl - sl, small) == 0`,
i.e. the last `sl` characters of `big` equal `small`.  When `sl > bl` the C
expression indexes before the buffer (undefined behaviour); we model that
case as "no match", which is the only defined reading. -/
def strsuf (big small : CStr) : Bool :=
  decide (small.length ≤ big.length) &&
    (big.drop (big.length - small.length) == small)

/-- The helper subsuf(in, suf1, suf2) (pixz.c lines 277–291): if `suf1` is a suffix of
`inp`, return `inp` with that suffix replaced by `suf2` (the C builds
`memcpy(r, in, li - l1); strcpy(r + li - l1, suf2)`), else NULL. -/
def subsuf (inp suf1 suf2 : CStr) : Option CStr :=
  if strsuf inp suf1 then
    some (inp.take (inp.length - suf1.length) ++ suf2)
  else
    none

/-- One expansion of the `SUF(_op, _s1, _s2)` macro (pixz.c lines 252–259):
try the substitution only when the current operation equals the rule's. -/
def trySUF (op ruleOp : pixz_op_t) (inp suf1 suf2 : CStr) : Option CStr :=
  if op = ruleOp then subsuf inp suf1 suf2 else none

/-- The deriver auto_output(op, in) (pixz.c lines 261–268): the fixed chain of `SUF`
invocations, each returning early on the first successful substitution. -/
def auto_output (op : pixz_op_t) (inp : CStr) : Option CStr :=
  (trySUF op OP_READ inp ".tar.xz".data ".tar".data).orElse fun _ =>
  (trySUF op OP_READ inp ".tpxz".data ".tar".data).orElse fun _ =>
  (trySUF op OP_READ inp ".xz".data "".data).orElse fun _ =>
  (trySUF op OP_WRITE inp ".tar".data ".tpxz".data).orElse fun _ =>
  (trySUF op OP_WRITE inp "".data ".xz".data).orElse fun _ =>
  none

/-- A suffix-substitution rule `(applicable-mode, match-suffix, replacement-suffix)`. -/
structure SuffixRule where
  mode : pixz_op_t
  matchSuf : CStr
  replSuf : CStr

/-- The rule table of `auto_output`, in source order. -/
def ruleTable : List SuffixRule :=
  [ ⟨OP_READ, ".tar.xz".data, ".tar".data⟩
  , ⟨OP_READ, ".tpxz".data, ".tar".data⟩
  , ⟨OP_READ, ".xz".data, "".data⟩
  , ⟨OP_WRITE, ".tar".data, ".tpxz".data⟩
  , ⟨OP_WRITE, "".data, ".xz".data⟩ ]

/-- Modelled from the spec: the path deriver as the spec describes it —
only rules whose applicable-mode equals the current operation are tried, in
table order, and the first rule whose match-suffix is a suffix of the known
path wins; its substitution (path with the match-suffix replaced by the
replacement-suffix) is returned, and `none` if no applicable rule matches. -/
def deriverSpec (op : pixz_op_t) (p : CStr) : Option CStr :=
  match (ruleTable.filter fun r => r.mode = op).find? fun r =>
      decide (r.matchSuf <:+ p) with
  | some r => some (p.take (p.length - r.matchSuf.length) ++ r.replSuf)
  | none => none

/-- Constant LZMA_PRESET_DEFAULT from liblzma (external collaborator): preset 6. -/
def LZMA_PRESET_DEFAULT : Nat := 6

/-- Constant LZMA_PRESET_EXTREME from liblzma (external collaborator): bit 31. -/
def LZMA_PRESET_EXTREME : Nat := 2147483648

/-- The configuration assembled by `main` (pixz.c lines 82–89) together
with the three pipeline globals it writes (`gBlockFraction`,
`gPipelineProcessMax`, `gPipelineQSize`, declared outside this file).
`gBlockFraction` is a C `double` set from decimal input; it is modelled as
an exact rational. -/
structure Flags where
  level : Nat
  tar : Bool
  keep_input : Bool
  extreme : Bool
  op : pixz_op_t
  ipath : Option CStr
  opath : Option CStr
  gBlockFraction : Rat
  gPipelineProcessMax : Int
  gPipelineQSize : Int
deriving DecidableEq, Repr

/-- The initial configuration (pixz.c lines 82–89); the initial values of
the three globals live outside this translation unit and are parameters. -/
def initFlags (bf : Rat) (pm qs : Int) : Flags :=
  { level := LZMA_PRESET_DEFAULT, tar := true, keep_input := false,
    extreme := false, op := OP_WRITE, ipath := none, opath := none,
    gBlockFraction := bf, gPipelineProcessMax := pm, gPipelineQSize := qs }

/-- C `isspace` in the default locale. -/
def cIsSpace (c : Char) : Bool :=
  c = ' ' || c = '\t' || c = '\n' || c = '\x0b' || c = '\x0c' || c = '\r'

/-- The value of a list of decimal digits. -/
def digitsVal (ds : List Char) : Nat :=
  ds.foldl (fun a c => 10 * a + (c.toNat - '0'.toNat)) 0

/-- The libc strtol(s, &end, 10), modelled without overflow clamping: skip
leading spaces, optional sign, then decimal digits; if no digits follow,
the value is 0 and `end` is the original string. -/
def strtol (s : CStr) : Int × CStr :=
  let t := s.dropWhile cIsSpace
  let su : Int × CStr :=
    match t with
    | '-' :: r => (-1, r)
    | '+' :: r => (1, r)
    | _ => (1, t)
  let ds := su.2.takeWhile Char.isDigit
  if ds.isEmpty then (0, s)
  else (su.1 * (digitsVal ds : Int), su.2.drop ds.length)

/-- The libc strtod, modelled for plain decimal literals (optional sign,
digits, optional fractional part) as an exact rational; exponents, hex
floats, infinities and rounding are not modelled — no claim depends on
them. -/
def strtodDec (s : CStr) : Rat × CStr :=
  let t := s.dropWhile cIsSpace
  let su : Rat × CStr :=
    match t with
    | '-' :: r => (-1, r)
    | '+' :: r => (1, r)
    | _ => (1, t)
  let ds := su.2.takeWhile Char.isDigit
  let rest := su.2.drop ds.length
  match rest with
  | '.' :: r =>
    let fs := r.takeWhile Char.isDigit
    if ds.isEmpty && fs.isEmpty then (0, s)
    else (su.1 * ((digitsVal ds : Rat) + (digitsVal fs : Rat) / (10 : Rat) ^ fs.length),
          r.drop fs.length)
  | _ =>
    if ds.isEmpty then (0, s) else (su.1 * (digitsVal ds : Rat), rest)

/-- One recognized-option event as delivered by `getopt_long` (external):
the returned option character and, for options taking an argument, the
`optarg` string. -/
structure OptEvent where
  ch : Char
  arg : Option CStr
deriving DecidableEq, Repr

/-- The body of the option `switch` (pixz.c lines 118–173) applied to one
option event.  `usage(msg)`, which prints and calls `exit(2)`, is modelled
as `Except.error (some msg)`; `Except.error none` is `usage(NULL)` (the
help flag).  Options that take an argument always receive one from
`getopt_long`, so the model reads `e.arg.getD []`.  Note there is no case
for 'z' (`--compress`): it reaches the default branch, is not a digit, and
so is a `usage("")` exit, exactly as in the C. -/
def stepOpt (f : Flags) (e : OptEvent) : Except (Option CStr) Flags :=
  let arg := e.arg.getD []
  match e.ch with
  | 'c' => .ok f
  | 'd' => .ok { f with op := OP_READ }
  | 'x' => .ok { f with op := OP_EXTRACT }
  | 'l' => .ok { f with op := OP_LIST }
  | 'i' => .ok { f with ipath := some arg }
  | 'o' => .ok { f with opath := some arg }
  | 't' => .ok { f with tar := false }
  | 'k' => .ok { f with keep_input := true }
  | 'h' => .error none
  | 'e' => .ok { f with extreme := true }
  | 'f' =>
    let vr := strtodDec arg
    if vr.2 ≠ [] ∨ vr.1 ≤ 0 then
      .error (some "Need a positive floating-point argument to -f".data)
    else .ok { f with gBlockFraction := vr.1 }
  | 'p' =>
    let vr := strtol arg
    if vr.1 < 0 ∨ vr.2 ≠ [] then
      .error (some "Need a non-negative integer argument to -p".data)
    else .ok { f with gPipelineProcessMax := vr.1 }
  | 'T' =>
    let vr := strtol arg
    if vr.1 < 0 ∨ vr.2 ≠ [] then
      .error (some "Need a non-negative integer argument to -p".data)
    else .ok { f with gPipelineProcessMax := vr.1 }
  | 'q' =>
    let vr := strtol arg
    if vr.1 ≤ 0 ∨ vr.2 ≠ [] then
      .error (some "Need a positive integer argument to -q".data)
    else .ok { f with gPipelineQSize := vr.1 }
  | ch =>
    if '0' ≤ ch ∧ ch ≤ '9' then .ok { f with level := ch.toNat - '0'.toNat }
    else .error (some "".data)

/-- The option-processing loop (pixz.c line 117): fold `stepOpt` over the
events delivered by `getopt_long`, stopping at the first `usage` exit. -/
def parseFlags (f : Flags) : List OptEvent → Except (Option CStr) Flags
  | [] => .ok f
  | e :: es =>
    match stepOpt f e with
    | .error m => .error m
    | .ok f' => parseFlags f' es

/-- The positional-argument binding block (pixz.c lines 181–199), rendered
as a pure function: given the operation, the positional arguments left
after `getopt_long`, and the paths set by `-i`/`-o`, produce the resolved
`(ipath, opath, iremove)` triple or a usage error.  Note that in the
one-argument, non-List branch the C assigns `opath = auto_output(...)`
without consulting any previously set `opath`. -/
def bindPositional (op : pixz_op_t) (args : List CStr)
    (ipath0 opath0 : Option CStr) :
    Except CStr (Option CStr × Option CStr × Bool) :=
  if op ≠ OP_EXTRACT ∧ 1 ≤ args.length then
    if 2 < args.length ∨ (op = OP_LIST ∧ args.length = 2) then
      .error "Too many arguments".data
    else if ipath0.isSome then
      .error "Multiple input files specified".data
    else if args.length = 2 then
      if opath0.isSome then .error "Multiple output files specified".data
      else .ok (some (args.getD 0 []), some (args.getD 1 []), false)
    else if op ≠ OP_LIST then
      match auto_output op (args.getD 0 []) with
      | some o => .ok (some (args.getD 0 []), some o, true)
      | none => .error "Unknown suffix".data
    else .ok (some (args.getD 0 []), opath0, false)
  else .ok (ipath0, opath0, false)

/-- The ambient file system and terminal, as `main` observes them: whether
`fopen(p, "r")` succeeds, the `st_mode` that `stat` reports for a path,
whether creating the output for writing succeeds, and whether the stream
resolved from the optional output path is a TTY (`none` stands for
inherited standard output). -/
structure World where
  canOpenRead : CStr → Bool
  statMode : CStr → Nat
  canCreate : CStr → Bool
  isTTY : Option CStr → Bool

/-- A file-system request issued by `main`, in program order. -/
inductive FileOp
  | openRead (p : CStr)
  | openWriteDefault (p : CStr)
  | openWriteMode (p : CStr) (mode : Nat)
  | unlink (p : CStr)
deriving DecidableEq, Repr

/-- A call into an external collaborator (pixz.c lines 228–244):
`pixz_write(tar, level)`, `pixz_read(tar, argc, argv)` with its member
list, or `pixz_list(tar)`. -/
inductive Collab
  | write (tar : Bool) (level : Nat)
  | read (tar : Bool) (args : List CStr)
  | list (tar : Bool)
deriving DecidableEq, Repr

/-- How an invocation of `main` ends: a `usage(msg)` exit, a `die` exit
after a failed open, or a normal run that invoked exactly one collaborator
and possibly unlinked the input. -/
inductive MainOutcome
  | usage (msg : Option CStr)
  | fatal (msg : CStr)
  | ok (call : Collab) (removedInput : Option CStr)
deriving DecidableEq, Repr

def MainOutcome.isOk : MainOutcome → Bool
  | .ok _ _ => true
  | _ => false

/-- Exit codes: usage ends in exit(2) (pixz.c line 78) and a normal run returns 0
(line 249).  `die` is outside this translation unit; modelled from the
spec: fatal I/O errors use "a distinct non-zero status family", taken
here as 1. -/
def exitCode : MainOutcome → Nat
  | .usage _ => 2
  | .fatal _ => 1
  | .ok _ _ => 0

/-- The stream-opening block (pixz.c lines 201–226): open the input when a
path is given, then the output.  When the input came from a real file
(`gInFile != stdin`, i.e. an input path was given and opened), the output
is created with `open(opath, O_CREAT|O_WRONLY, input_stat.st_mode)` —
requesting exactly the input's `st_mode` — otherwise with `fopen(opath,
"w")` under umask-derived permissions.  Returns the requests issued and
the fatal `die` message, if any.  The C does not check `stat`'s return
value; the model makes `statMode` a total function.  The `die` messages
keep the fixed text; path and `errno` rendering are elided. -/
def openPhase (w : World) (ipath opath : Option CStr) :
    List FileOp × Option CStr :=
  match ipath with
  | some i =>
    if w.canOpenRead i then
      match opath with
      | some o =>
        if w.canCreate o then
          ([.openRead i, .openWriteMode o (w.statMode i)], none)
        else
          ([.openRead i, .openWriteMode o (w.statMode i)],
            some "can not open output file".data)
      | none => ([.openRead i], none)
    else ([.openRead i], some "can not open input file".data)
  | none =>
    match opath with
    | some o =>
      if w.canCreate o then ([.openWriteDefault o], none)
      else ([.openWriteDefault o], some "can not open output file".data)
    | none => ([], none)

/-- The dispatch `switch` and cleanup (pixz.c lines 228–247): in
`OP_WRITE` mode refuse a TTY output, else call `pixz_write` with the level
OR-ed with the extreme bit when `-e` was given; then, on success,
`unlink(ipath)` when `iremove && !keep_input`. -/
def dispatchCleanup (w : World) (fl : Flags) (ipath opath : Option CStr)
    (iremove : Bool) (pos : List CStr) (tr : List FileOp) :
    MainOutcome × List FileOp :=
  let fin : Collab → MainOutcome × List FileOp := fun c =>
    if iremove && !fl.keep_input then
      (.ok c (some (ipath.getD [])), tr ++ [.unlink (ipath.getD [])])
    else (.ok c none, tr)
  match fl.op with
  | OP_WRITE =>
    if w.isTTY opath then
      (.usage (some "Refusing to output to a TTY".data), tr)
    else
      fin (.write fl.tar
        (if fl.extreme then Nat.lor fl.level LZMA_PRESET_EXTREME else fl.level))
  | OP_READ => fin (.read fl.tar [])
  | OP_EXTRACT => fin (.read fl.tar pos)
  | OP_LIST => fin (.list fl.tar)

/-- The whole of `main` (pixz.c lines 81–250) over an abstract world:
`events` are the option events `getopt_long` delivers, `pos` the
positional arguments left over after option processing.  Returns the
outcome and the file-system requests issued, in order. -/
def mainModel (w : World) (f0 : Flags) (events : List OptEvent)
    (pos : List CStr) : MainOutcome × List FileOp :=
  match parseFlags f0 events with
  | .error m => (.usage m, [])
  | .ok fl =>
    match bindPositional fl.op pos fl.ipath fl.opath with
    | .error m => (.usage (some m), [])
    | .ok (ip, opth, irem) =>
      match openPhase w ip opth with
      | (tr, some m) => (.fatal m, tr)
      | (tr, none) => dispatchCleanup w fl ip opth irem pos tr

/-- The output-creation requests among a request list. -/
def createRequests (tr : List FileOp) : List FileOp :=
  tr.filter fun o => match o with
    | .openWriteDefault _ => true
    | .openWriteMode _ _ => true
    | _ => false

/-- The paths unlinked by a request list. -/
def unlinkedPaths (tr : List FileOp) : List CStr :=
  tr.filterMap fun o => match o with
    | .unlink p => some p
    | _ => none

/-- A concrete world for witnesses: every open succeeds, every file
reports mode 0o640, nothing is a TTY. -/
def wTest : World :=
  ⟨fun _ => true, fun _ => 0o640, fun _ => true, fun _ => false⟩

/-- A concrete world where no output can be created: reads succeed, every
file reports mode 0o640, creation fails, nothing is a TTY. -/
def wFail : World :=
  ⟨fun _ => true, fun _ => 0o640, fun _ => false, fun _ => false⟩

theorem strsuf_eq_suffix_decide (big small : CStr) :
    strsuf big small = decide (small <:+ big) := by
  unfold strsuf
  by_cases h : small <:+ big
  · have hd := List.suffix_iff_eq_drop.mp h
    have hl : small.length ≤ big.length := h.length_le
    simp [h, ← hd, hl]
  · simp only [h, decide_False, decide_eq_false_iff_not]
    rw [Bool.and_eq_false_iff]
    by_cases hl : small.length ≤ big.length
    · right
      rw [beq_eq_false_iff_ne]
      intro heq
      exact h (List.suffix_iff_eq_drop.mpr heq.symm)
    · left
      simpa using hl

theorem strsuf_iff (big small : CStr) :
    strsuf big small = true ↔ small <:+ big := by
  rw [strsuf_eq_suffix_decide]; exact decide_eq_true_iff

/-- Claim C1: the path deriver `auto_output` is a (deterministic, pure) function
that, for every operation mode and known path, tries only the rules whose
mode equals the current operation, in fixed table order, returns the
substitution of the first rule whose match-suffix is a suffix of the known
path, and returns none when no applicable rule matches. -/
theorem auto_output_eq_deriverSpec (op : pixz_op_t) (p : CStr) :
    auto_output op p = deriverSpec op p := by
  have hsub : ∀ s1 s2 : CStr, subsuf p s1 s2 =
      if decide (s1 <:+ p) = true then
        some (p.take (p.length - s1.length) ++ s2)
      else none := by
    intro s1 s2
    unfold subsuf
    rw [strsuf_eq_suffix_decide]
  cases op <;>
    simp only [auto_output, trySUF, deriverSpec, ruleTable, List.filter,
      List.find?, hsub, decide_True, decide_False, reduceCtorEq,
      if_true, if_false, reduceIte] <;>
  · by_cases h1 : (".tar.xz".data : CStr) <:+ p <;>
    by_cases h2 : (".tpxz".data : CStr) <:+ p <;>
    by_cases h3 : (".xz".data : CStr) <:+ p <;>
    by_cases h4 : (".tar".data : CStr) <:+ p <;>
    by_cases h5 : (("".data : CStr)) <:+ p <;>
    simp [h1, h2, h3, h4, h5, Option.orElse]

theorem subsuf_append (stem s1 s2 : CStr) :
    subsuf (stem ++ s1) s1 s2 = some (stem ++ s2) := by
  have hs : strsuf (stem ++ s1) s1 = true :=
    (strsuf_iff _ _).mpr ⟨stem, rfl⟩
  simp [subsuf, hs, List.length_append, Nat.add_sub_cancel, List.take_left]

theorem subsuf_eq_none {inp s1 : CStr} (h : ¬ s1 <:+ inp) (s2 : CStr) :
    subsuf inp s1 s2 = none := by
  have hs : strsuf inp s1 = false := by
    rw [strsuf_eq_suffix_decide]
    exact decide_eq_false h
  simp [subsuf, hs]

theorem not_suffix_of_clash {s1 s2 q : CStr} (h2 : s2 <:+ q)
    (h12 : ¬ s1 <:+ s2) (h21 : ¬ s2 <:+ s1) : ¬ s1 <:+ q :=
  fun h1 => (List.suffix_or_suffix_of_suffix h1 h2).elim h12 h21

/-- Claim C4: round trip of the deriver — for every name ending in the tar
suffix, deriving an output name under Compress (`OP_WRITE`) and then
deriving an output name from that result under Decompress (`OP_READ`)
yields back the original tar-suffixed name. -/
theorem auto_output_roundtrip_tar (p : CStr) (h : ".tar".data <:+ p) :
    ∃ q, auto_output OP_WRITE p = some q ∧ auto_output OP_READ q = some p := by
  obtain ⟨stem, rfl⟩ := h
  refine ⟨stem ++ ".tpxz".data, ?_, ?_⟩
  · simp [auto_output, trySUF, subsuf_append, Option.orElse]
  · have h1 : ¬ (".tar.xz".data : CStr) <:+ stem ++ ".tpxz".data :=
      not_suffix_of_clash (List.suffix_append _ _) (by decide) (by decide)
    simp [auto_output, trySUF, subsuf_eq_none h1, subsuf_append, Option.orElse]

theorem auto_output_roundtrip_tar_witness :
    ((".tar".data : CStr) <:+ "foo.tar".data) ∧
    ∃ q, auto_output OP_WRITE "foo.tar".data = some q ∧
      auto_output OP_READ q = some "foo.tar".data :=
  ⟨by decide, auto_output_roundtrip_tar "foo.tar".data (by decide)⟩

theorem parseFlags_append (f : Flags) (es es' : List OptEvent) :
    parseFlags f (es ++ es') =
      match parseFlags f es with
      | .ok f' => parseFlags f' es'
      | .error m => .error m := by
  induction es generalizing f with
  | nil => rfl
  | cons e t ih =>
    simp only [List.cons_append, parseFlags]
    cases stepOpt f e with
    | error m => rfl
    | ok f' => exact ih f'

theorem stepOpt_stdout (f : Flags) : stepOpt f ⟨'c', none⟩ = .ok f := rfl

theorem parseFlags_stdout_noop (f : Flags) (es1 es2 : List OptEvent) :
    parseFlags f (es1 ++ ⟨'c', none⟩ :: es2) = parseFlags f (es1 ++ es2) := by
  induction es1 generalizing f with
  | nil => rfl
  | cons e t ih =>
    simp only [List.cons_append, parseFlags]
    cases stepOpt f e with
    | error m => rfl
    | ok f' => exact ih f'

/-- Claim C10: the -c / --stdout flag is accepted but has no effect — for
every argument vector (option-event list plus positionals), inserting a
'c' option event anywhere leaves the parsed configuration, and with it the
whole behaviour of main, identical to the same invocation without it. -/
theorem stdout_flag_no_effect (w : World) (f0 : Flags) (es1 es2 : List OptEvent)
    (pos : List CStr) :
    parseFlags f0 (es1 ++ ⟨'c', none⟩ :: es2) = parseFlags f0 (es1 ++ es2) ∧
    mainModel w f0 (es1 ++ ⟨'c', none⟩ :: es2) pos =
      mainModel w f0 (es1 ++ es2) pos := by
  refine ⟨parseFlags_stdout_noop f0 es1 es2, ?_⟩
  unfold mainModel
  rw [parseFlags_stdout_noop]

/-- Claim C8: a non-positive -q (queue-size) argument, such as -q 0, makes
the parser raise a usage error: main ends with the reserved usage exit
status 2 and no file-system request is issued. -/
theorem qsize_nonpositive_usage (w : World) (f0 fl : Flags)
    (es es2 : List OptEvent) (pos : List CStr) (s : CStr)
    (hok : parseFlags f0 es = .ok fl) (hval : (strtol s).1 ≤ 0) :
    mainModel w f0 (es ++ ⟨'q', some s⟩ :: es2) pos =
      (.usage (some "Need a positive integer argument to -q".data), []) ∧
    exitCode (mainModel w f0 (es ++ ⟨'q', some s⟩ :: es2) pos).1 = 2 := by
  have hstep : stepOpt fl ⟨'q', some s⟩ =
      .error (some "Need a positive integer argument to -q".data) := by
    show (if (strtol s).1 ≤ 0 ∨ (strtol s).2 ≠ [] then
        Except.error (α := Flags) (some "Need a positive integer argument to -q".data)
      else .ok { fl with gPipelineQSize := (strtol s).1 }) = _
    rw [if_pos (Or.inl hval)]
  have hparse : parseFlags f0 (es ++ ⟨'q', some s⟩ :: es2) =
      .error (some "Need a positive integer argument to -q".data) := by
    rw [parseFlags_append, hok]
    simp only [parseFlags, hstep]
  constructor
  · unfold mainModel
    rw [hparse]
  · unfold mainModel
    rw [hparse]
    rfl

theorem qsize_nonpositive_usage_witness :
    (parseFlags (initFlags 0 0 0) [] = .ok (initFlags 0 0 0)) ∧
    ((strtol "0".data).1 ≤ 0) ∧
    (mainModel wTest (initFlags 0 0 0) [⟨'q', some "0".data⟩] [] =
      (.usage (some "Need a positive integer argument to -q".data), []) ∧
     exitCode (mainModel wTest (initFlags 0 0 0) [⟨'q', some "0".data⟩] [] ).1 = 2) :=
  ⟨rfl, by decide,
    qsize_nonpositive_usage wTest (initFlags 0 0 0) (initFlags 0 0 0) [] [] []
      "0".data rfl (by decide)⟩

/-- Claim C7: with two positional arguments under List mode — and, for
every mode other than ExtractMember, with more than two positional
arguments — the positional binder raises the "Too many arguments" usage
error and main terminates without issuing any file-system request. -/
theorem too_many_args_usage (w : World) (f0 fl : Flags) (es : List OptEvent)
    (pos : List CStr)
    (hok : parseFlags f0 es = .ok fl) (hx : fl.op ≠ OP_EXTRACT)
    (hc : 2 < pos.length ∨ (fl.op = OP_LIST ∧ pos.length = 2)) :
    mainModel w f0 es pos = (.usage (some "Too many arguments".data), []) := by
  have hge : 1 ≤ pos.length := by
    rcases hc with h | ⟨_, h⟩ <;> omega
  have hbind : bindPositional fl.op pos fl.ipath fl.opath =
      .error "Too many arguments".data := by
    unfold bindPositional
    rw [if_pos ⟨hx, hge⟩, if_pos hc]
  unfold mainModel
  rw [hok]
  simp only []
  rw [hbind]

theorem too_many_args_usage_witness :
    (parseFlags (initFlags 0 0 0) [⟨'l', none⟩] =
      .ok { initFlags 0 0 0 with op := OP_LIST }) ∧
    mainModel wTest (initFlags 0 0 0) [⟨'l', none⟩] ["a".data, "b".data] =
      (.usage (some "Too many arguments".data), []) :=
  ⟨rfl, too_many_args_usage wTest (initFlags 0 0 0)
    { initFlags 0 0 0 with op := OP_LIST } [⟨'l', none⟩]
    ["a".data, "b".data] rfl (by decide) (Or.inr ⟨rfl, rfl⟩)⟩

/-- The claim that an explicitly supplied output path always suppresses
suffix derivation is false: with one positional argument "foo.tar" in
Compress mode and an explicit -o "bar", the binder derives "foo.tpxz",
overwrites "bar" with it, and main opens "foo.tpxz" (never "bar") and even
schedules removal of the input. -/
theorem explicit_output_overridden_counterexample :
    bindPositional OP_WRITE ["foo.tar".data] none (some "bar".data) =
      .ok (some "foo.tar".data, some "foo.tpxz".data, true) ∧
    (some "foo.tpxz".data ≠ some "bar".data) ∧
    (mainModel wTest (initFlags 0 0 0) [⟨'o', some "bar".data⟩]
        ["foo.tar".data]).2 =
      [.openRead "foo.tar".data,
       .openWriteMode "foo.tpxz".data 0o640,
       .unlink "foo.tar".data] := by
  refine ⟨rfl, by decide, rfl⟩

/-- Claim C3 (amended): with zero positional arguments the explicitly
supplied output path is used and no derivation occurs; with two positional
arguments an explicit output path is a duplicate-output usage error; but
with exactly one positional argument in a mode other than ExtractMember
and List, the deriver runs even though an output path was supplied
explicitly, and its result replaces the explicit path. -/
theorem explicit_output_and_derivation (op : pixz_op_t) (p o : CStr)
    (ip : Option CStr) (p2 : CStr)
    (hx : op ≠ OP_EXTRACT) (hl : op ≠ OP_LIST) :
    bindPositional op [] ip (some o) = .ok (ip, some o, false) ∧
    bindPositional op [p, p2] none (some o) =
      .error "Multiple output files specified".data ∧
    bindPositional op [p] none (some o) =
      (match auto_output op p with
       | some q => .ok (some p, some q, true)
       | none => .error "Unknown suffix".data) := by
  refine ⟨?_, ?_, ?_⟩
  · unfold bindPositional
    simp
  · unfold bindPositional
    simp [hx, hl]
  · unfold bindPositional
    simp [hx, hl]

theorem explicit_output_and_derivation_witness :
    (OP_WRITE ≠ OP_EXTRACT) ∧ (OP_WRITE ≠ OP_LIST) ∧
    (bindPositional OP_WRITE [] none (some "bar".data) =
      .ok (none, some "bar".data, false) ∧
     bindPositional OP_WRITE ["foo.tar".data, "x".data] none (some "bar".data) =
      .error "Multiple output files specified".data ∧
     bindPositional OP_WRITE ["foo.tar".data] none (some "bar".data) =
      (match auto_output OP_WRITE "foo.tar".data with
       | some q => .ok (some "foo.tar".data, some q, true)
       | none => .error "Unknown suffix".data)) :=
  ⟨by decide, by decide,
    explicit_output_and_derivation OP_WRITE "foo.tar".data "bar".data none
      "x".data (by decide) (by decide)⟩

/-- The claim that the derived output for "foo.tar" under Compress is
"foo.tar" with a suffix appended is false: the code replaces the ".tar"
suffix, producing "foo.tpxz", which does not extend "foo.tar" by any
suffix at all. -/
theorem compress_suffix_appended_counterexample :
    auto_output OP_WRITE "foo.tar".data = some "foo.tpxz".data ∧
    ¬ ∃ s : CStr, "foo.tpxz".data = "foo.tar".data ++ s := by
  refine ⟨by decide, ?_⟩
  rintro ⟨s, hs⟩
  have h7 : ("foo.tar".data ++ s).take 7 = "foo.tar".data :=
    List.take_left' rfl
  rw [← hs] at h7
  exact absurd h7 (by decide)

/-- Claim C5 (amended): given exactly one positional argument "foo.tar"
and mode Compress, the derived output path is "foo.tar" with its ".tar"
suffix replaced by the compress-tar suffix ".tpxz" — i.e. "foo.tpxz" —
and removal of the original input after a successful run is scheduled
unless the keep-flag is set. -/
theorem compress_foo_tar_derivation (keep : Bool) (w : World)
    (hr : w.canOpenRead "foo.tar".data = true)
    (hc : w.canCreate "foo.tpxz".data = true)
    (ht : w.isTTY (some "foo.tpxz".data) = false) :
    bindPositional OP_WRITE ["foo.tar".data] none none =
      .ok (some "foo.tar".data, some "foo.tpxz".data, true) ∧
    (mainModel w (initFlags 0 0 0)
        (if keep then [⟨'k', none⟩] else []) ["foo.tar".data]).1 =
      .ok (.write true LZMA_PRESET_DEFAULT)
        (if keep then none else some "foo.tar".data) ∧
    unlinkedPaths (mainModel w (initFlags 0 0 0)
        (if keep then [⟨'k', none⟩] else []) ["foo.tar".data]).2 =
      (if keep then [] else ["foo.tar".data]) := by
  refine ⟨rfl, ?_⟩
  cases keep <;>
    simp [mainModel, parseFlags, stepOpt, initFlags, bindPositional,
      openPhase, dispatchCleanup, hr, hc, ht, unlinkedPaths, auto_output,
      trySUF, subsuf, strsuf]

theorem compress_foo_tar_derivation_witness :
    (wTest.canOpenRead "foo.tar".data = true) ∧
    (wTest.canCreate "foo.tpxz".data = true) ∧
    (wTest.isTTY (some "foo.tpxz".data) = false) ∧
    (bindPositional OP_WRITE ["foo.tar".data] none none =
      .ok (some "foo.tar".data, some "foo.tpxz".data, true) ∧
     (mainModel wTest (initFlags 0 0 0) [] ["foo.tar".data]).1 =
      .ok (.write true LZMA_PRESET_DEFAULT) (some "foo.tar".data) ∧
     unlinkedPaths (mainModel wTest (initFlags 0 0 0) [] ["foo.tar".data]).2 =
      ["foo.tar".data]) := by
  refine ⟨rfl, rfl, rfl, ?_⟩
  have h := compress_foo_tar_derivation false wTest rfl rfl rfl
  simpa using h

theorem createRequests_append (a b : List FileOp) :
    createRequests (a ++ b) = createRequests a ++ createRequests b := by
  simp [createRequests, List.filter_append]

theorem createRequests_unlink (p : CStr) :
    createRequests [FileOp.unlink p] = [] := rfl

theorem unlinkedPaths_append (a b : List FileOp) :
    unlinkedPaths (a ++ b) = unlinkedPaths a ++ unlinkedPaths b := by
  simp [unlinkedPaths, List.filterMap_append]

theorem dispatchCleanup_trace (w : World) (fl : Flags) (ip opth : Option CStr)
    (irem : Bool) (pos : List CStr) (tr : List FileOp) :
    (dispatchCleanup w fl ip opth irem pos tr).2 = tr ∨
    (dispatchCleanup w fl ip opth irem pos tr).2 =
      tr ++ [FileOp.unlink (ip.getD [])] := by
  unfold dispatchCleanup
  cases fl.op <;> simp only [] <;> split_ifs <;> simp

/-- Claim C2: whenever an output path is set and the input is a real file
(an input path that opens successfully, so the input is not standard
input), the single output-creation request made by main asks for exactly
the input file's stat mode bits — never the umask-derived default — and
if creation fails the run ends in a fatal error, before the dispatcher
could invoke any collaborator. -/
theorem output_creation_uses_input_mode (w : World) (f0 fl : Flags)
    (es : List OptEvent) (pos : List CStr) (i o : CStr) (irem : Bool)
    (hok : parseFlags f0 es = .ok fl)
    (hbind : bindPositional fl.op pos fl.ipath fl.opath =
      .ok (some i, some o, irem))
    (hopen : w.canOpenRead i = true) :
    createRequests (mainModel w f0 es pos).2 =
      [FileOp.openWriteMode o (w.statMode i)] ∧
    (w.canCreate o = false →
      (mainModel w f0 es pos).1 = .fatal "can not open output file".data ∧
      (mainModel w f0 es pos).1.isOk = false) := by
  unfold mainModel
  rw [hok]
  simp only []
  rw [hbind]
  simp only [openPhase, hopen, if_true]
  cases hc : w.canCreate o with
  | false =>
    simp [createRequests, MainOutcome.isOk]
  | true =>
    simp only [if_true]
    constructor
    · rcases dispatchCleanup_trace w fl (some i) (some o) irem pos
        [FileOp.openRead i, FileOp.openWriteMode o (w.statMode i)] with h | h <;>
        rw [h] <;>
        simp [createRequests_append, createRequests, createRequests_unlink]
    · intro hfalse
      exact absurd hfalse (by decide)

theorem output_creation_uses_input_mode_witness :
    (parseFlags (initFlags 0 0 0) [] = .ok (initFlags 0 0 0)) ∧
    (bindPositional OP_WRITE ["foo.tar".data] none none =
      .ok (some "foo.tar".data, some "foo.tpxz".data, true)) ∧
    (wFail.canOpenRead "foo.tar".data = true) ∧
    (createRequests (mainModel wFail (initFlags 0 0 0) [] ["foo.tar".data]).2 =
      [FileOp.openWriteMode "foo.tpxz".data 0o640] ∧
     (wFail.canCreate "foo.tpxz".data = false →
      (mainModel wFail (initFlags 0 0 0) [] ["foo.tar".data]).1 =
        .fatal "can not open output file".data ∧
      (mainModel wFail (initFlags 0 0 0) [] ["foo.tar".data]).1.isOk = false)) :=
  ⟨rfl, rfl, rfl,
    output_creation_uses_input_mode wFail (initFlags 0 0 0) (initFlags 0 0 0)
      [] ["foo.tar".data] "foo.tar".data "foo.tpxz".data true rfl rfl rfl⟩

/-- Claim C6: in Compress mode, once the streams are resolved and opened,
if the resolved output stream is an interactive terminal then main ends in
the "Refusing to output to a TTY" usage error and no collaborator is
invoked; otherwise the compression collaborator is called with the
tar-awareness flag and the level OR-ed with the extreme bit when the
extreme flag is set. -/
theorem compress_tty_refusal (w : World) (f0 fl : Flags) (es : List OptEvent)
    (pos : List CStr) (ip opth : Option CStr) (irem : Bool) (tr : List FileOp)
    (hok : parseFlags f0 es = .ok fl) (hw : fl.op = OP_WRITE)
    (hbind : bindPositional fl.op pos fl.ipath fl.opath = .ok (ip, opth, irem))
    (hopen : openPhase w ip opth = (tr, none)) :
    (w.isTTY opth = true →
      (mainModel w f0 es pos).1 =
        .usage (some "Refusing to output to a TTY".data) ∧
      (mainModel w f0 es pos).1.isOk = false) ∧
    (w.isTTY opth = false →
      ∃ u, (mainModel w f0 es pos).1 =
        .ok (.write fl.tar
          (if fl.extreme then Nat.lor fl.level LZMA_PRESET_EXTREME
           else fl.level)) u) := by
  unfold mainModel
  rw [hok]
  simp only []
  rw [hbind]
  simp only []
  rw [hopen]
  unfold dispatchCleanup
  rw [hw]
  constructor
  · intro htty
    rw [htty]
    simp [MainOutcome.isOk]
  · intro htty
    rw [htty]
    simp only [Bool.false_eq_true, if_false]
    split <;> exact ⟨_, rfl⟩

theorem compress_tty_refusal_witness :
    (parseFlags (initFlags 0 0 0) [] = .ok (initFlags 0 0 0)) ∧
    ((initFlags 0 0 0).op = OP_WRITE) ∧
    (bindPositional OP_WRITE ["foo.tar".data] none none =
      .ok (some "foo.tar".data, some "foo.tpxz".data, true)) ∧
    (openPhase wTest (some "foo.tar".data) (some "foo.tpxz".data) =
      ([FileOp.openRead "foo.tar".data,
        FileOp.openWriteMode "foo.tpxz".data 0o640], none)) ∧
    ((wTest.isTTY (some "foo.tpxz".data) = false →
      ∃ u, (mainModel wTest (initFlags 0 0 0) [] ["foo.tar".data]).1 =
        .ok (.write true LZMA_PRESET_DEFAULT) u)) :=
  ⟨rfl, rfl, rfl, rfl,
    (compress_tty_refusal wTest (initFlags 0 0 0) (initFlags 0 0 0) []
      ["foo.tar".data] (some "foo.tar".data) (some "foo.tpxz".data) true
      [FileOp.openRead "foo.tar".data,
       FileOp.openWriteMode "foo.tpxz".data 0o640]
      rfl rfl rfl rfl).2⟩

theorem unlinkedPaths_openPhase (w : World) (ip opth : Option CStr) :
    unlinkedPaths (openPhase w ip opth).1 = [] := by
  unfold openPhase
  cases ip <;> cases opth <;> simp only [] <;> (try split_ifs) <;>
    simp [unlinkedPaths]

/-- Claim C9: given a successful run (the dispatcher call returned), the
original input file is unlinked if and only if the binder marked
auto-derivation-triggered removal and the keep-flag is not set; in every
other case no unlink request is issued at all. -/
theorem cleanup_unlink_iff (w : World) (f0 fl : Flags) (es : List OptEvent)
    (pos : List CStr) (ip opth : Option CStr) (irem : Bool)
    (hok : parseFlags f0 es = .ok fl)
    (hbind : bindPositional fl.op pos fl.ipath fl.opath = .ok (ip, opth, irem)) :
    unlinkedPaths (mainModel w f0 es pos).2 =
      (if (mainModel w f0 es pos).1.isOk && irem && !fl.keep_input
       then [ip.getD []] else []) := by
  unfold mainModel
  rw [hok]
  simp only []
  simp only [hbind]
  cases hop : openPhase w ip opth with
  | mk tr died =>
    have htr : unlinkedPaths tr = [] := by
      have := unlinkedPaths_openPhase w ip opth
      rw [hop] at this
      exact this
    cases died with
    | some m => simp [MainOutcome.isOk, htr]
    | none =>
      unfold dispatchCleanup
      cases fl.op <;> simp only [] <;> split_ifs <;>
        simp_all [MainOutcome.isOk, unlinkedPaths_append, unlinkedPaths]

theorem cleanup_unlink_iff_witness :
    (parseFlags (initFlags 0 0 0) [] = .ok (initFlags 0 0 0)) ∧
    (bindPositional OP_WRITE ["foo.tar".data] none none =
      .ok (some "foo.tar".data, some "foo.tpxz".data, true)) ∧
    unlinkedPaths (mainModel wTest (initFlags 0 0 0) [] ["foo.tar".data]).2 =
      (if (mainModel wTest (initFlags 0 0 0) [] ["foo.tar".data]).1.isOk
          && true && !(initFlags 0 0 0).keep_input
       then [(some "foo.tar".data).getD []] else []) :=
  ⟨rfl, rfl,
    cleanup_unlink_iff wTest (initFlags 0 0 0) (initFlags 0 0 0) []
      ["foo.tar".data] (some "foo.tar".data) (some "foo.tpxz".data) true
      rfl rfl⟩
